import Mathlib

/-!
Verification of the cyclops-go ingestion API (`src/api/api.go`).

The Go handler validates a project, reads a possibly base64-encoded body,
hashes it into a cache key, bumps a TTL-scoped counter and decides whether
to admit (forward) or ignore (drop) the event.  The definitions below are a
shallow embedding of that file.  External collaborators that are not part
of the repository are passed in as parameters (the project validator, the
grouping hash, the parsed auth-header list, the query lookup); the cache
(`models.Cache`, repository code not present under `src/`) is modelled from
the spec's AdmissionCache contract.
-/

namespace Cyclops

/-- Model of Go `strconv.Atoi` restricted to the route's `[0-9]+` captures:
digit-only strings parse to their value, anything else (or a value outside
the 64-bit signed range, which `Atoi` reports as `ErrRange`) is an error.
Sign prefixes are omitted because the mux route only admits digits. -/
def atoi (s : String) : Option Int :=
  if s.length > 0 ∧ s.toList.all Char.isDigit then
    let n : Nat := s.toList.foldl (fun a c => a * 10 + (c.toNat - 48)) 0
    if n < 2 ^ 63 then some (n : Int) else none
  else none

/-- Value of a character in the standard base64 alphabet (`A-Za-z0-9+/`). -/
def b64Val (c : Char) : Option Nat :=
  if 'A' ≤ c ∧ c ≤ 'Z' then some (c.toNat - 65)
  else if 'a' ≤ c ∧ c ≤ 'z' then some (c.toNat - 71)
  else if '0' ≤ c ∧ c ≤ '9' then some (c.toNat + 4)
  else if c = '+' then some 62
  else if c = '/' then some 63
  else none

/-- Quantum-by-quantum decoding of standard (padded) base64, following Go's
`base64.StdEncoding.DecodeString`: four alphabet characters yield three
bytes; a final quantum may end in `=` (three characters of data) or `==`
(two characters of data), and nothing may follow the padding; any other
shape, stray `=` or non-alphabet character is a `CorruptInputError`.
Go's default decoder does not check the unused trailing bits. -/
def decodeChunks : List Char → Option (List Nat)
  | [] => some []
  | a :: b :: c :: d :: rest =>
    match b64Val a, b64Val b, b64Val c, b64Val d with
    | some va, some vb, some vc, some vd =>
      (decodeChunks rest).map (fun t =>
        (va * 4 + vb / 16) :: ((vb % 16) * 16 + vc / 4) :: ((vc % 4) * 64 + vd) :: t)
    | some va, some vb, some vc, none =>
      if d = '=' ∧ rest = [] then
        some [va * 4 + vb / 16, (vb % 16) * 16 + vc / 4]
      else none
    | some va, some vb, none, _ =>
      if c = '=' ∧ d = '=' ∧ rest = [] then
        some [va * 4 + vb / 16]
      else none
    | _, _, _, _ => none
  | _ => none

/-- Go's base64 decoder skips carriage returns and newlines anywhere in the
input; filtering them out first is equivalent. -/
def stripNewlines (l : List Char) : List Char :=
  l.filter (fun c => !(c == '\n' || c == '\r'))

/-- Model of `base64.StdEncoding.DecodeString` on byte strings (bytes are
represented as characters with code points below 256). -/
def decodeBase64 (s : String) : Option String :=
  (decodeChunks (stripNewlines s.toList)).map (fun bs => String.mk (bs.map Char.ofNat))

/-- Model of `getRequestBody` (api.go lines 193-207): attempt a base64 decode of the
raw body; on success use the decoded bytes, on failure use the raw body
as-is.  The transport-level `ReadAll` failure path (which returns 404
before any of the logic modelled here) is elided: the raw body is given
as already-read bytes. -/
def getRequestBody (raw : String) : String :=
  match decodeBase64 raw with
  | some d => d
  | none => raw

/-- Model of `XSentryAuth` (api.go lines 24-30). -/
structure XSentryAuth where
  sentry_key : String
  sentry_secret : String
deriving DecidableEq, Repr

/-- The loop body of `getSentryKeyAndSecret` (api.go lines 169-178): an
element of the parsed header list that contains `=` is split at the first
`=` (Go `strings.SplitN(v, "=", 2)`) and overwrites the matching auth
field; anything else is skipped. -/
def applyAuthHeader (a : XSentryAuth) (v : String) : XSentryAuth :=
  if v.contains '=' then
    let sp := v.splitOn "="
    let field := sp.headD ""
    let value := String.intercalate "=" sp.tail
    if field = "sentry_key" then { a with sentry_key := value }
    else if field = "sentry_secret" then { a with sentry_secret := value }
    else a
  else a

/-- Model of `getSentryKeyAndSecret` (api.go lines 165-181).  `query` models
`r.URL.Query().Get` (empty string when absent); `headerValues` is the
list produced by `header.ParseList(r.Header, "X-Sentry-Auth")` (an
external library, given as input).  The key is seeded from the query,
the secret starts at Go's zero value; each `field=value` element of the
header list then overwrites the matching field. -/
def getSentryKeyAndSecret (query : String → String) (headerValues : List String) :
    XSentryAuth :=
  let a0 : XSentryAuth := { sentry_key := query "sentry_key", sentry_secret := "" }
  headerValues.foldl applyAuthHeader a0

/-- Modelled from the spec: the state of the AdmissionCache
(`models.Cache`, repository code not under `src/`).  Entries are an
association list from keys to 64-bit counters; all claims are set within
a single TTL window, so expiry timestamps are not tracked.  `available`
says whether the underlying store is reachable (spec §4.1
StoreUnavailable). -/
structure Cache where
  entries : List (String × Int)
  available : Bool
deriving Repr

/-- First binding of a key in the association list. -/
def lookupEntries : List (String × Int) → String → Option Int
  | [], _ => none
  | p :: t, k => if p.1 = k then some p.2 else lookupEntries t k

def Cache.lookup (c : Cache) (k : String) : Option Int :=
  lookupEntries c.entries k

/-- Modelled from the spec: `get(key) -> count` returns the current count,
or the zero value if the key is absent; on StoreUnavailable it fails,
returning Go's zero value alongside the error (the Boolean is `false`). -/
def Cache.get (c : Cache) (k : String) : Int × Bool :=
  if c.available then ((c.lookup k).getD 0, true) else (0, false)

/-- Modelled from the spec: `setIfAbsent(key, ttl)` establishes a fresh
entry (counter at the scheme's base value 0) only if none exists; a no-op
when the entry exists or the store is unavailable.  The TTL argument only
arms expiry, which a single-window model does not track. -/
def Cache.set (c : Cache) (k : String) : Cache :=
  if c.available then
    if (c.lookup k).isSome then c
    else { c with entries := (k, 0) :: c.entries }
  else c

/-- Modelled from the spec: `incrementAndGet(key) -> count` atomically
increments the counter and returns the post-increment value, treating a
missing entry as fresh (restart at 1); on StoreUnavailable it fails,
returning the zero value alongside the error. -/
def Cache.incr (c : Cache) (k : String) : Int × Cache :=
  if c.available then
    match c.lookup k with
    | some n =>
      (n + 1,
       { c with entries := c.entries.map (fun p => if p.1 = k then (p.1, n + 1) else p) })
    | none => (1, { c with entries := (k, 1) :: c.entries })
  else (0, c)

/-- The configuration fields the handler reads (`conf.Config`):
`UrlCacheExpiration` is the dedup TTL in seconds, `MaxCacheUses` the
maximum-uses threshold. -/
structure Config where
  UrlCacheExpiration : Int
  MaxCacheUses : Int
deriving Repr

/-- Model of `validateCache` (api.go lines 136-146): when the TTL is positive, read
the counter (errors discarded), arm a fresh entry when the read returned 0,
then increment and return the post-increment count (errors discarded);
when the TTL is not positive, return the zero count without touching the
cache.  The updated cache state is returned alongside the count. -/
def validateCache (cfg : Config) (cache : Cache) (url : String) : Int × Cache :=
  if cfg.UrlCacheExpiration > 0 then
    let count := (cache.get url).1
    let cache1 := if count == 0 then cache.set url else cache
    cache1.incr url
  else (0, cache)

/-- Model of `models.Message` as constructed by `processRequest` (api.go lines
148-161). -/
structure Message where
  ProjectId : Int
  RequestMethod : String
  Headers : List (String × List String)
  OriginUrl : String
  RequestBody : String
deriving DecidableEq, Repr

/-- The handler's response: HTTP status plus the two informational headers
(`X-CYCLOPS-CACHE-COUNT`, `X-CYCLOPS-STATUS`), `none` when a header is not
set. -/
structure Response where
  status : Nat
  cacheCountHeader : Option Int
  statusHeader : Option String
deriving DecidableEq, Repr

/-- The mutable state the handler touches: the cache, the two process-wide
stat counters (`uint64`; modelled as `Nat`, wraparound at `2^64` elided),
and the delivery queue (`requestStorage.Put` calls, most recent first). -/
structure ApiState where
  cache : Cache
  ignoredItems : Nat
  processedItems : Nat
  storage : List (Int × Message)
deriving Repr

/-- The per-request inputs of `apiHandler`: the `projectId` route variable,
the query lookup, the parsed `X-Sentry-Auth` list, the raw body bytes, and
the request fields copied into the delivered message. -/
structure RequestData where
  projectIdVar : String
  query : String → String
  authHeaderValues : List String
  rawBody : String
  requestURI : String
  method : String
  headers : List (String × List String)

/-- The cache key built at api.go lines 93-95: the textual project id
concatenated with the grouping hash of the (decoded) body.  `hashFn`
models `hash.HashForGrouping`, returning an identifier and an optional
error; the handler uses the identifier unconditionally. -/
def cacheKeyOf (hashFn : String → String × Option String) (projectIdVar rawBody : String) :
    String :=
  projectIdVar ++ (hashFn (getRequestBody rawBody)).1

/-- Model of `apiHandler` (api.go lines 63-123).  `isValid` models
`projects.IsValidProjectAndPublicKey`; `hashFn` models
`hash.HashForGrouping` (identifier plus optional error — a hash error is
only logged, the identifier is used regardless).  Returns the new state
and the response.  Malformed project id or failed validation: 404, no
state change.  Otherwise the cache count decides: count greater than the
threshold ignores (ignored-stat bumped, nothing stored), else processes
(processed-stat bumped, message stored), both answering 204 with the
count and a status tag. -/
def apiHandler (cfg : Config) (isValid : Int → String → Bool)
    (hashFn : String → String × Option String) (s : ApiState) (rd : RequestData) :
    ApiState × Response :=
  match atoi rd.projectIdVar with
  | none => (s, { status := 404, cacheCountHeader := none, statusHeader := none })
  | some projectId =>
    if isValid projectId (getSentryKeyAndSecret rd.query rd.authHeaderValues).sentry_key then
      let bodyBytes := getRequestBody rd.rawBody
      let cacheKey := rd.projectIdVar ++ (hashFn bodyBytes).1
      let originUrl := "http://localhost:2222" ++ rd.requestURI
      let res := validateCache cfg s.cache cacheKey
      if res.1 > cfg.MaxCacheUses then
        ({ s with cache := res.2, ignoredItems := s.ignoredItems + 1 },
         { status := 204, cacheCountHeader := some res.1, statusHeader := some "IGNORED" })
      else
        let m : Message :=
          { ProjectId := projectId, RequestMethod := rd.method, Headers := rd.headers,
            OriginUrl := originUrl, RequestBody := bodyBytes }
        ({ s with cache := res.2, processedItems := s.processedItems + 1,
                  storage := (projectId, m) :: s.storage },
         { status := 204, cacheCountHeader := some res.1, statusHeader := some "PROCESSED" })
    else (s, { status := 404, cacheCountHeader := none, statusHeader := none })

/-- Iterated handler runs: `n` sequential submissions of the same request: the list of status tags
observed, in order (empty string would mean an unset header), and the final
state. -/
def submitList (cfg : Config) (isValid : Int → String → Bool)
    (hashFn : String → String × Option String) (rd : RequestData) :
    Nat → ApiState → List String × ApiState
  | 0, s => ([], s)
  | n + 1, s =>
    let step := apiHandler cfg isValid hashFn s rd
    let rest := submitList cfg isValid hashFn rd n step.1
    ((step.2.statusHeader.getD "") :: rest.1, rest.2)

/-- The message `processRequest` hands to the delivery queue for an
admitted request. -/
def deliveredMessage (rd : RequestData) (pid : Int) : Message :=
  { ProjectId := pid, RequestMethod := rd.method, Headers := rd.headers,
    OriginUrl := "http://localhost:2222" ++ rd.requestURI,
    RequestBody := getRequestBody rd.rawBody }

/-- Spec-side description of one parsed auth-header element: the value it
assigns to field `f`, if any. -/
def headerFieldValue (f v : String) : Option String :=
  if v.contains '=' then
    let sp := v.splitOn "="
    if sp.headD "" = f then some (String.intercalate "=" sp.tail) else none
  else none

/-- Spec-side description of the header overlay: the last value assigned
to field `f` by the list, if any. -/
def lastHeaderField (vals : List String) (f : String) : Option String :=
  match vals with
  | [] => none
  | v :: rest =>
    match lastHeaderField rest f with
    | some x => some x
    | none => headerFieldValue f v

/-- A cache state at the start of a TTL window with a reachable store. -/
def freshState : ApiState :=
  { cache := { entries := [], available := true },
    ignoredItems := 0, processedItems := 0, storage := [] }

/-- A state whose cache store is unreachable. -/
def downState : ApiState :=
  { cache := { entries := [], available := false },
    ignoredItems := 0, processedItems := 0, storage := [] }

/-- A concrete request used to instantiate the theorems: project `7`, no
auth material, a body that is not valid base64. -/
def testRequest : RequestData :=
  { projectIdVar := "7", query := fun _ => "", authHeaderValues := [],
    rawBody := "zz!", requestURI := "/api/7/store/", method := "POST", headers := [] }

/-- A project validator that accepts everything. -/
def allValid : Int → String → Bool := fun _ _ => true

/-- A grouping oracle that never fails and uses the body itself as the
identifier (deterministic and pure, per the collaborator contract). -/
def identHash : String → String × Option String := fun b => (b, none)

/-- A grouping oracle whose hash computation always fails, returning Go's
zero-value identifier alongside the error. -/
def failingHash : String → String × Option String := fun _ => ("", some "hash failure")

/-! ### Cache lemmas -/

theorem lookupEntries_map_update (l : List (String × Int)) (k : String) (m : Int) :
    lookupEntries (l.map (fun p => if p.1 = k then (p.1, m) else p)) k
      = (lookupEntries l k).map (fun _ => m) := by
  induction l with
  | nil => rfl
  | cons p t ih =>
    by_cases h : p.1 = k
    · simp [lookupEntries, h]
    · simp [lookupEntries, h, ih]

/-- With a positive TTL and a reachable store, `validateCache` returns the
post-increment count: one more than the stored count (0 when absent). -/
theorem validateCache_count (cfg : Config) (c : Cache) (k : String)
    (httl : 0 < cfg.UrlCacheExpiration) (hav : c.available = true) :
    (validateCache cfg c k).1 = (c.lookup k).getD 0 + 1 := by
  unfold validateCache
  rw [if_pos httl]
  simp only [Cache.get, Cache.set, Cache.incr, Cache.lookup, hav, if_true]
  cases hL : lookupEntries c.entries k with
  | none => simp [hL, lookupEntries]
  | some n =>
    by_cases hn : n = 0
    · simp [hL, hn, hav, lookupEntries]
    · simp [hL, hn, hav, lookupEntries]

/-- With a positive TTL and a reachable store, the updated cache stores the
post-increment count under the key. -/
theorem validateCache_lookup (cfg : Config) (c : Cache) (k : String)
    (httl : 0 < cfg.UrlCacheExpiration) (hav : c.available = true) :
    (validateCache cfg c k).2.lookup k = some ((c.lookup k).getD 0 + 1) := by
  unfold validateCache
  rw [if_pos httl]
  simp only [Cache.get, Cache.set, Cache.incr, Cache.lookup, hav, if_true]
  cases hL : lookupEntries c.entries k with
  | none => simp [hL, lookupEntries]
  | some n =>
    by_cases hn : n = 0
    · simp [hL, hn, hav, lookupEntries, lookupEntries_map_update]
    · simp [hL, hn, hav, lookupEntries, lookupEntries_map_update]

/-- The function `validateCache` preserves reachability of the store. -/
theorem validateCache_available (cfg : Config) (c : Cache) (k : String)
    (hav : c.available = true) :
    (validateCache cfg c k).2.available = true := by
  unfold validateCache
  split
  · simp only [Cache.get, Cache.set, Cache.incr, Cache.lookup, hav, if_true]
    cases hL : lookupEntries c.entries k with
    | none => simp [hL, lookupEntries]
    | some n =>
      by_cases hn : n = 0
      · simp [hL, hn, hav, lookupEntries]
      · simp [hL, hn, hav, lookupEntries]
  · exact hav

/-! ### Handler lemmas -/

/-- For a well-formed, validated request the handler reduces to the
admission decision on the cache count. -/
theorem apiHandler_ok (cfg : Config) (iv : Int → String → Bool)
    (hf : String → String × Option String) (s : ApiState) (rd : RequestData) (pid : Int)
    (hp : atoi rd.projectIdVar = some pid)
    (hv : iv pid (getSentryKeyAndSecret rd.query rd.authHeaderValues).sentry_key = true) :
    apiHandler cfg iv hf s rd =
      (let res := validateCache cfg s.cache (cacheKeyOf hf rd.projectIdVar rd.rawBody)
       if res.1 > cfg.MaxCacheUses then
         ({ s with cache := res.2, ignoredItems := s.ignoredItems + 1 },
          { status := 204, cacheCountHeader := some res.1, statusHeader := some "IGNORED" })
       else
         ({ s with cache := res.2, processedItems := s.processedItems + 1,
                   storage := (pid, deliveredMessage rd pid) :: s.storage },
          { status := 204, cacheCountHeader := some res.1,
            statusHeader := some "PROCESSED" })) := by
  unfold apiHandler
  rw [hp]
  simp only [hv, if_true]
  rfl

/-- The ignore branch of the admission decision. -/
theorem apiHandler_ignored (cfg : Config) (iv : Int → String → Bool)
    (hf : String → String × Option String) (s : ApiState) (rd : RequestData) (pid : Int)
    (hp : atoi rd.projectIdVar = some pid)
    (hv : iv pid (getSentryKeyAndSecret rd.query rd.authHeaderValues).sentry_key = true)
    (hgt : (validateCache cfg s.cache (cacheKeyOf hf rd.projectIdVar rd.rawBody)).1
        > cfg.MaxCacheUses) :
    apiHandler cfg iv hf s rd =
      ({ s with
           cache := (validateCache cfg s.cache
             (cacheKeyOf hf rd.projectIdVar rd.rawBody)).2,
           ignoredItems := s.ignoredItems + 1 },
       { status := 204,
         cacheCountHeader :=
           some (validateCache cfg s.cache (cacheKeyOf hf rd.projectIdVar rd.rawBody)).1,
         statusHeader := some "IGNORED" }) := by
  rw [apiHandler_ok cfg iv hf s rd pid hp hv]
  simp [hgt]

/-- The admit branch of the admission decision. -/
theorem apiHandler_processed (cfg : Config) (iv : Int → String → Bool)
    (hf : String → String × Option String) (s : ApiState) (rd : RequestData) (pid : Int)
    (hp : atoi rd.projectIdVar = some pid)
    (hv : iv pid (getSentryKeyAndSecret rd.query rd.authHeaderValues).sentry_key = true)
    (hle : ¬ (validateCache cfg s.cache (cacheKeyOf hf rd.projectIdVar rd.rawBody)).1
        > cfg.MaxCacheUses) :
    apiHandler cfg iv hf s rd =
      ({ s with
           cache := (validateCache cfg s.cache
             (cacheKeyOf hf rd.projectIdVar rd.rawBody)).2,
           processedItems := s.processedItems + 1,
           storage := (pid, deliveredMessage rd pid) :: s.storage },
       { status := 204,
         cacheCountHeader :=
           some (validateCache cfg s.cache (cacheKeyOf hf rd.projectIdVar rd.rawBody)).1,
         statusHeader := some "PROCESSED" }) := by
  rw [apiHandler_ok cfg iv hf s rd pid hp hv]
  simp [hle]

/-- With a non-positive TTL the cache steps are skipped entirely. -/
theorem validateCache_nonpos (cfg : Config) (c : Cache) (k : String)
    (httl : cfg.UrlCacheExpiration ≤ 0) :
    validateCache cfg c k = (0, c) := by
  unfold validateCache
  rw [if_neg (by omega)]

/-- With an unreachable store, every cache operation fails and
`validateCache` returns the zero count with the cache untouched. -/
theorem validateCache_unavail (cfg : Config) (c : Cache) (k : String)
    (hav : c.available = false) :
    validateCache cfg c k = (0, c) := by
  unfold validateCache
  split
  · simp [Cache.get, Cache.set, Cache.incr, hav]
  · rfl

/-! ### Claim C1 -/

/-- C1: for every request that passes project validation when the dedup TTL
is positive, the event is ignored iff the post-increment cache count is
strictly greater than the configured maximum-uses threshold; in the ignore
case the ignored-stat is incremented by one and the event is not handed to
the delivery queue, otherwise the processed-stat is incremented by one and
the event is handed to the delivery queue; both outcomes return a 204
response carrying the count and a PROCESSED/IGNORED status tag. -/
theorem C1_admission_decision (cfg : Config) (iv : Int → String → Bool)
    (hf : String → String × Option String) (s : ApiState) (rd : RequestData) (pid : Int)
    (hp : atoi rd.projectIdVar = some pid)
    (hv : iv pid (getSentryKeyAndSecret rd.query rd.authHeaderValues).sentry_key = true)
    (httl : 0 < cfg.UrlCacheExpiration) :
    ((apiHandler cfg iv hf s rd).2.statusHeader = some "IGNORED"
        ↔ (validateCache cfg s.cache (cacheKeyOf hf rd.projectIdVar rd.rawBody)).1
            > cfg.MaxCacheUses)
    ∧ (apiHandler cfg iv hf s rd).2.status = 204
    ∧ (apiHandler cfg iv hf s rd).2.cacheCountHeader
        = some (validateCache cfg s.cache (cacheKeyOf hf rd.projectIdVar rd.rawBody)).1
    ∧ ((validateCache cfg s.cache (cacheKeyOf hf rd.projectIdVar rd.rawBody)).1
          > cfg.MaxCacheUses →
        (apiHandler cfg iv hf s rd).1.ignoredItems = s.ignoredItems + 1
        ∧ (apiHandler cfg iv hf s rd).1.processedItems = s.processedItems
        ∧ (apiHandler cfg iv hf s rd).1.storage = s.storage)
    ∧ (¬ (validateCache cfg s.cache (cacheKeyOf hf rd.projectIdVar rd.rawBody)).1
          > cfg.MaxCacheUses →
        (apiHandler cfg iv hf s rd).2.statusHeader = some "PROCESSED"
        ∧ (apiHandler cfg iv hf s rd).1.processedItems = s.processedItems + 1
        ∧ (apiHandler cfg iv hf s rd).1.ignoredItems = s.ignoredItems
        ∧ (apiHandler cfg iv hf s rd).1.storage
            = (pid, deliveredMessage rd pid) :: s.storage) := by
  by_cases hgt : (validateCache cfg s.cache (cacheKeyOf hf rd.projectIdVar rd.rawBody)).1
      > cfg.MaxCacheUses
  · rw [apiHandler_ignored cfg iv hf s rd pid hp hv hgt]
    simp [hgt]
  · rw [apiHandler_processed cfg iv hf s rd pid hp hv hgt]
    simp [hgt, (by decide : ("PROCESSED" : String) ≠ "IGNORED")]

/-- C1 witness: the decision theorem instantiated at a concrete validated
request (project 7, TTL 60s, threshold 1, fresh reachable cache). -/
theorem C1_admission_decision_witness :
    atoi testRequest.projectIdVar = some 7
    ∧ allValid 7
        (getSentryKeyAndSecret testRequest.query testRequest.authHeaderValues).sentry_key
        = true
    ∧ (0 : Int) < (Config.mk 60 1).UrlCacheExpiration
    ∧ (((apiHandler (Config.mk 60 1) allValid identHash freshState testRequest).2.statusHeader
          = some "IGNORED"
        ↔ (validateCache (Config.mk 60 1) freshState.cache
              (cacheKeyOf identHash testRequest.projectIdVar testRequest.rawBody)).1
            > (Config.mk 60 1).MaxCacheUses)
      ∧ (apiHandler (Config.mk 60 1) allValid identHash freshState testRequest).2.status = 204
      ∧ (apiHandler (Config.mk 60 1) allValid identHash freshState testRequest).2.cacheCountHeader
          = some (validateCache (Config.mk 60 1) freshState.cache
              (cacheKeyOf identHash testRequest.projectIdVar testRequest.rawBody)).1
      ∧ ((validateCache (Config.mk 60 1) freshState.cache
              (cacheKeyOf identHash testRequest.projectIdVar testRequest.rawBody)).1
            > (Config.mk 60 1).MaxCacheUses →
          (apiHandler (Config.mk 60 1) allValid identHash freshState testRequest).1.ignoredItems
              = freshState.ignoredItems + 1
          ∧ (apiHandler (Config.mk 60 1) allValid identHash freshState
                testRequest).1.processedItems = freshState.processedItems
          ∧ (apiHandler (Config.mk 60 1) allValid identHash freshState testRequest).1.storage
              = freshState.storage)
      ∧ (¬ (validateCache (Config.mk 60 1) freshState.cache
              (cacheKeyOf identHash testRequest.projectIdVar testRequest.rawBody)).1
            > (Config.mk 60 1).MaxCacheUses →
          (apiHandler (Config.mk 60 1) allValid identHash freshState testRequest).2.statusHeader
              = some "PROCESSED"
          ∧ (apiHandler (Config.mk 60 1) allValid identHash freshState
                testRequest).1.processedItems = freshState.processedItems + 1
          ∧ (apiHandler (Config.mk 60 1) allValid identHash freshState testRequest).1.ignoredItems
              = freshState.ignoredItems
          ∧ (apiHandler (Config.mk 60 1) allValid identHash freshState testRequest).1.storage
              = (7, deliveredMessage testRequest 7) :: freshState.storage)) :=
  ⟨by decide, rfl, by decide,
   C1_admission_decision (Config.mk 60 1) allValid identHash freshState testRequest 7
     (by decide) rfl (by decide)⟩

/-! ### Repeated submissions -/

/-- Within one TTL window with a reachable store, starting from a state
whose counter for the request's cache key reads `i`, the next `n`
submissions produce `min n (threshold - i)` PROCESSED tags followed by
IGNORED tags, and exactly that many deliveries. -/
theorem submitList_spec (cfg : Config) (iv : Int → String → Bool)
    (hf : String → String × Option String) (rd : RequestData) (pid : Int)
    (hp : atoi rd.projectIdVar = some pid)
    (hv : iv pid (getSentryKeyAndSecret rd.query rd.authHeaderValues).sentry_key = true)
    (httl : 0 < cfg.UrlCacheExpiration)
    (hT : 0 ≤ cfg.MaxCacheUses) :
    ∀ (n : Nat) (s : ApiState) (i : Nat),
      s.cache.available = true →
      (s.cache.lookup (cacheKeyOf hf rd.projectIdVar rd.rawBody)).getD 0 = (i : Int) →
      (submitList cfg iv hf rd n s).1
          = List.replicate (min n (cfg.MaxCacheUses.toNat - i)) "PROCESSED"
            ++ List.replicate (n - (cfg.MaxCacheUses.toNat - i)) "IGNORED"
        ∧ (submitList cfg iv hf rd n s).2.storage.length
            = s.storage.length + min n (cfg.MaxCacheUses.toNat - i) := by
  intro n
  induction n with
  | zero =>
    intro s i hav hcount
    simp [submitList]
  | succ n ih =>
    intro s i hav hcount
    have hcnt : (validateCache cfg s.cache (cacheKeyOf hf rd.projectIdVar rd.rawBody)).1
        = (i : Int) + 1 := by
      rw [validateCache_count cfg s.cache _ httl hav, hcount]
    have hlk : (validateCache cfg s.cache (cacheKeyOf hf rd.projectIdVar rd.rawBody)).2.lookup
        (cacheKeyOf hf rd.projectIdVar rd.rawBody) = some ((i : Int) + 1) := by
      rw [validateCache_lookup cfg s.cache _ httl hav, hcount]
    have hav' : (validateCache cfg s.cache (cacheKeyOf hf rd.projectIdVar rd.rawBody)).2.available
        = true := validateCache_available cfg s.cache _ hav
    by_cases hgt : (validateCache cfg s.cache (cacheKeyOf hf rd.projectIdVar rd.rawBody)).1
        > cfg.MaxCacheUses
    · -- this submission is ignored: the counter has passed the threshold
      have hi : cfg.MaxCacheUses.toNat ≤ i := by
        rw [hcnt] at hgt
        omega
      have hstep := apiHandler_ignored cfg iv hf s rd pid hp hv hgt
      obtain ⟨htags, hlen⟩ := ih ({ s with
          cache := (validateCache cfg s.cache (cacheKeyOf hf rd.projectIdVar rd.rawBody)).2,
          ignoredItems := s.ignoredItems + 1 }) (i + 1) hav'
        (by rw [show ((i + 1 : Nat) : Int) = (i : Int) + 1 by push_cast; ring]
            simp [hlk])
      simp only [submitList, hstep, htags, hlen]
      constructor
      · have h0 : cfg.MaxCacheUses.toNat - i = 0 := by omega
        have h1 : cfg.MaxCacheUses.toNat - (i + 1) = 0 := by omega
        simp [h0, h1, List.replicate_succ]
      · have h0 : cfg.MaxCacheUses.toNat - i = 0 := by omega
        have h1 : cfg.MaxCacheUses.toNat - (i + 1) = 0 := by omega
        simp [h0, h1]
    · -- this submission is admitted: the counter is still within the threshold
      have hi : i < cfg.MaxCacheUses.toNat := by
        rw [hcnt] at hgt
        omega
      have hstep := apiHandler_processed cfg iv hf s rd pid hp hv hgt
      obtain ⟨htags, hlen⟩ := ih ({ s with
          cache := (validateCache cfg s.cache (cacheKeyOf hf rd.projectIdVar rd.rawBody)).2,
          processedItems := s.processedItems + 1,
          storage := (pid, deliveredMessage rd pid) :: s.storage }) (i + 1) hav'
        (by rw [show ((i + 1 : Nat) : Int) = (i : Int) + 1 by push_cast; ring]
            simp [hlk])
      simp only [submitList, hstep, htags, hlen]
      constructor
      · have h1 : min (n + 1) (cfg.MaxCacheUses.toNat - i)
            = min n (cfg.MaxCacheUses.toNat - (i + 1)) + 1 := by omega
        have h2 : (n + 1) - (cfg.MaxCacheUses.toNat - i)
            = n - (cfg.MaxCacheUses.toNat - (i + 1)) := by omega
        rw [h1, h2, List.replicate_succ]
        simp
      · have h1 : min (n + 1) (cfg.MaxCacheUses.toNat - i)
            = min n (cfg.MaxCacheUses.toNat - (i + 1)) + 1 := by omega
        simp [h1]
        omega

/-! ### Claim C2 -/

/-- C2: for a fixed (projectId, body) pair submitted N times sequentially
within one TTL window with a non-negative threshold T, the first min(N, T)
submissions are admitted (handed to delivery) and the remaining
N - min(N, T) are ignored; in particular exactly T admissions occur when
N exceeds T. -/
theorem C2_sequential_submissions (cfg : Config) (iv : Int → String → Bool)
    (hf : String → String × Option String) (rd : RequestData) (pid : Int)
    (hp : atoi rd.projectIdVar = some pid)
    (hv : iv pid (getSentryKeyAndSecret rd.query rd.authHeaderValues).sentry_key = true)
    (httl : 0 < cfg.UrlCacheExpiration)
    (hT : 0 ≤ cfg.MaxCacheUses)
    (N : Nat) (s : ApiState)
    (hav : s.cache.available = true)
    (hfresh : s.cache.lookup (cacheKeyOf hf rd.projectIdVar rd.rawBody) = none) :
    (submitList cfg iv hf rd N s).1
        = List.replicate (min N cfg.MaxCacheUses.toNat) "PROCESSED"
          ++ List.replicate (N - min N cfg.MaxCacheUses.toNat) "IGNORED"
      ∧ (submitList cfg iv hf rd N s).2.storage.length
          = s.storage.length + min N cfg.MaxCacheUses.toNat := by
  obtain ⟨h1, h2⟩ := submitList_spec cfg iv hf rd pid hp hv httl hT N s 0 hav
    (by simp [hfresh])
  rw [Nat.sub_zero] at h1 h2
  refine ⟨?_, by rw [h2]⟩
  rw [h1]
  have he : N - cfg.MaxCacheUses.toNat = N - min N cfg.MaxCacheUses.toNat := by omega
  rw [he]

/-- C2 witness: five submissions against threshold 2 from a fresh window:
two PROCESSED, three IGNORED, two deliveries. -/
theorem C2_sequential_submissions_witness :
    atoi testRequest.projectIdVar = some 7
    ∧ allValid 7
        (getSentryKeyAndSecret testRequest.query testRequest.authHeaderValues).sentry_key
        = true
    ∧ (0 : Int) < (Config.mk 60 2).UrlCacheExpiration
    ∧ (0 : Int) ≤ (Config.mk 60 2).MaxCacheUses
    ∧ freshState.cache.available = true
    ∧ freshState.cache.lookup
        (cacheKeyOf identHash testRequest.projectIdVar testRequest.rawBody) = none
    ∧ ((submitList (Config.mk 60 2) allValid identHash testRequest 5 freshState).1
          = List.replicate (min 5 (Config.mk 60 2).MaxCacheUses.toNat) "PROCESSED"
            ++ List.replicate (5 - min 5 (Config.mk 60 2).MaxCacheUses.toNat) "IGNORED"
       ∧ (submitList (Config.mk 60 2) allValid identHash testRequest 5 freshState).2.storage.length
          = freshState.storage.length + min 5 (Config.mk 60 2).MaxCacheUses.toNat) :=
  ⟨by decide, rfl, by decide, by decide, rfl, by decide,
   C2_sequential_submissions (Config.mk 60 2) allValid identHash testRequest 7
     (by decide) rfl (by decide) (by decide) 5 freshState rfl (by decide)⟩

/-! ### Claim C3 -/

/-- C3 counterexample: with threshold 0 and a positive TTL, the very first
occurrence of a fresh content is already IGNORED and nothing is delivered
(its post-increment count 1 exceeds the threshold 0), contradicting the
claim that the first occurrence is always admitted. -/
theorem C3_counterexample :
    (apiHandler (Config.mk 60 0) allValid identHash freshState testRequest).2.statusHeader
        = some "IGNORED"
    ∧ (apiHandler (Config.mk 60 0) allValid identHash freshState testRequest).1.storage
        = [] := by
  decide

/-- C3 amended: when the maximum-uses threshold is 0 and the dedup TTL is
positive, every occurrence of any content within a window — including the
first — is ignored, and nothing is handed to delivery. -/
theorem C3_threshold_zero (cfg : Config) (iv : Int → String → Bool)
    (hf : String → String × Option String) (rd : RequestData) (pid : Int)
    (hp : atoi rd.projectIdVar = some pid)
    (hv : iv pid (getSentryKeyAndSecret rd.query rd.authHeaderValues).sentry_key = true)
    (httl : 0 < cfg.UrlCacheExpiration)
    (hmax : cfg.MaxCacheUses = 0)
    (n : Nat) (s : ApiState)
    (hav : s.cache.available = true)
    (hfresh : s.cache.lookup (cacheKeyOf hf rd.projectIdVar rd.rawBody) = none) :
    (submitList cfg iv hf rd n s).1 = List.replicate n "IGNORED"
    ∧ (submitList cfg iv hf rd n s).2.storage.length = s.storage.length := by
  obtain ⟨h1, h2⟩ := submitList_spec cfg iv hf rd pid hp hv httl (by omega) n s 0 hav
    (by simp [hfresh])
  rw [hmax] at h1 h2
  simp only [Int.toNat_zero, Nat.zero_sub, Nat.sub_zero, min_zero, List.replicate_zero,
    List.nil_append, Nat.add_zero] at h1 h2
  exact ⟨h1, h2⟩

/-- C3 amended witness: three submissions at threshold 0, TTL 60s: all
three IGNORED, nothing delivered. -/
theorem C3_threshold_zero_witness :
    atoi testRequest.projectIdVar = some 7
    ∧ allValid 7
        (getSentryKeyAndSecret testRequest.query testRequest.authHeaderValues).sentry_key
        = true
    ∧ (0 : Int) < (Config.mk 60 0).UrlCacheExpiration
    ∧ (Config.mk 60 0).MaxCacheUses = 0
    ∧ freshState.cache.available = true
    ∧ freshState.cache.lookup
        (cacheKeyOf identHash testRequest.projectIdVar testRequest.rawBody) = none
    ∧ ((submitList (Config.mk 60 0) allValid identHash testRequest 3 freshState).1
          = List.replicate 3 "IGNORED"
       ∧ (submitList (Config.mk 60 0) allValid identHash testRequest 3 freshState).2.storage.length
          = freshState.storage.length) :=
  ⟨by decide, rfl, by decide, rfl, rfl, by decide,
   C3_threshold_zero (Config.mk 60 0) allValid identHash testRequest 7
     (by decide) rfl (by decide) rfl 3 freshState rfl (by decide)⟩

/-! ### Claim C4 -/

/-- C4 counterexample: with the TTL disabled (0) and threshold -1, a
validated request is IGNORED (count 0 exceeds -1) and nothing is
delivered, contradicting the claim that every validated request is
admitted for every threshold value. -/
theorem C4_counterexample :
    (apiHandler (Config.mk 0 (-1)) allValid identHash freshState testRequest).2.statusHeader
        = some "IGNORED"
    ∧ (apiHandler (Config.mk 0 (-1)) allValid identHash freshState testRequest).1.storage
        = [] := by
  decide

/-- C4 amended: when the dedup TTL is not positive and the threshold is
non-negative, the cache steps are skipped entirely (the cache state is
untouched) and every request that passes project validation is admitted,
with a reported count of 0. -/
theorem C4_ttl_disabled (cfg : Config) (iv : Int → String → Bool)
    (hf : String → String × Option String) (s : ApiState) (rd : RequestData) (pid : Int)
    (hp : atoi rd.projectIdVar = some pid)
    (hv : iv pid (getSentryKeyAndSecret rd.query rd.authHeaderValues).sentry_key = true)
    (httl : cfg.UrlCacheExpiration ≤ 0)
    (hT : 0 ≤ cfg.MaxCacheUses) :
    apiHandler cfg iv hf s rd =
      ({ s with processedItems := s.processedItems + 1,
                storage := (pid, deliveredMessage rd pid) :: s.storage },
       { status := 204, cacheCountHeader := some 0, statusHeader := some "PROCESSED" }) := by
  have hvc := validateCache_nonpos cfg s.cache (cacheKeyOf hf rd.projectIdVar rd.rawBody) httl
  have hle : ¬ (validateCache cfg s.cache (cacheKeyOf hf rd.projectIdVar rd.rawBody)).1
      > cfg.MaxCacheUses := by
    rw [hvc]
    exact not_lt.mpr hT
  rw [apiHandler_processed cfg iv hf s rd pid hp hv hle, hvc]

/-- C4 amended witness: TTL 0, threshold 5: the request is admitted and the
cache is never consulted. -/
theorem C4_ttl_disabled_witness :
    atoi testRequest.projectIdVar = some 7
    ∧ allValid 7
        (getSentryKeyAndSecret testRequest.query testRequest.authHeaderValues).sentry_key
        = true
    ∧ (Config.mk 0 5).UrlCacheExpiration ≤ 0
    ∧ (0 : Int) ≤ (Config.mk 0 5).MaxCacheUses
    ∧ apiHandler (Config.mk 0 5) allValid identHash freshState testRequest =
        ({ freshState with processedItems := freshState.processedItems + 1,
                           storage := (7, deliveredMessage testRequest 7) :: freshState.storage },
         { status := 204, cacheCountHeader := some 0, statusHeader := some "PROCESSED" }) :=
  ⟨by decide, rfl, by decide, by decide,
   C4_ttl_disabled (Config.mk 0 5) allValid identHash freshState testRequest 7
     (by decide) rfl (by decide) (by decide)⟩

/-! ### Claim C5 -/

/-- C5 counterexample: a request whose grouping hash fails is still pushed
through the deduplication path; with threshold 0 and TTL 60 its count 1
exceeds the threshold, so the event is dropped — contradicting the claim
that on grouping failure the event is admitted with no deduplication
applied. -/
theorem C5_counterexample :
    (failingHash (getRequestBody testRequest.rawBody)).2 = some "hash failure"
    ∧ (apiHandler (Config.mk 60 0) allValid failingHash freshState testRequest).2.statusHeader
        = some "IGNORED"
    ∧ (apiHandler (Config.mk 60 0) allValid failingHash freshState testRequest).1.storage
        = [] := by
  decide

/-- C5 amended: when the grouping hash fails, the failure is only logged:
the handler behaves exactly as if the oracle had returned the same
identifier with no error, so the event still flows through the normal
dedup path (cache key built from the returned identifier) and is admitted
or ignored by the usual count comparison; the failure never causes a
rejection response (the status is 204, never 404). -/
theorem C5_grouping_failure (cfg : Config) (iv : Int → String → Bool)
    (hf : String → String × Option String) (s : ApiState) (rd : RequestData)
    (pid : Int) (e : String)
    (hp : atoi rd.projectIdVar = some pid)
    (hv : iv pid (getSentryKeyAndSecret rd.query rd.authHeaderValues).sentry_key = true)
    (herr : (hf (getRequestBody rd.rawBody)).2 = some e) :
    apiHandler cfg iv hf s rd = apiHandler cfg iv (fun b => ((hf b).1, none)) s rd
    ∧ (apiHandler cfg iv hf s rd).2.status = 204 := by
  refine ⟨rfl, ?_⟩
  by_cases hgt : (validateCache cfg s.cache (cacheKeyOf hf rd.projectIdVar rd.rawBody)).1
      > cfg.MaxCacheUses
  · rw [apiHandler_ignored cfg iv hf s rd pid hp hv hgt]
  · rw [apiHandler_processed cfg iv hf s rd pid hp hv hgt]

/-- C5 amended witness: the failing oracle's run coincides with the
error-free run and answers 204. -/
theorem C5_grouping_failure_witness :
    atoi testRequest.projectIdVar = some 7
    ∧ allValid 7
        (getSentryKeyAndSecret testRequest.query testRequest.authHeaderValues).sentry_key
        = true
    ∧ (failingHash (getRequestBody testRequest.rawBody)).2 = some "hash failure"
    ∧ (apiHandler (Config.mk 60 1) allValid failingHash freshState testRequest
          = apiHandler (Config.mk 60 1) allValid (fun b => ((failingHash b).1, none))
              freshState testRequest
       ∧ (apiHandler (Config.mk 60 1) allValid failingHash freshState testRequest).2.status
          = 204) :=
  ⟨by decide, rfl, by decide,
   C5_grouping_failure (Config.mk 60 1) allValid failingHash freshState testRequest 7
     "hash failure" (by decide) rfl (by decide)⟩

/-! ### Claim C6 -/

/-- C6 counterexample: with the store unreachable and threshold -1, the
fail-open count 0 still exceeds the threshold, so the validated event is
IGNORED — contradicting the claim that store unavailability never causes a
validated event to be ignored for every configured threshold. -/
theorem C6_counterexample :
    downState.cache.available = false
    ∧ (apiHandler (Config.mk 60 (-1)) allValid identHash downState testRequest).2.statusHeader
        = some "IGNORED"
    ∧ (apiHandler (Config.mk 60 (-1)) allValid identHash downState testRequest).1.storage
        = [] := by
  decide

/-- C6 amended: when the cache store is unreachable (get and increment
fail), the request is processed with the fail-open count 0 and — for every
non-negative threshold — the event is admitted: processed-stat bumped,
message delivered, response 204 PROCESSED with count 0, cache untouched. -/
theorem C6_store_unavailable (cfg : Config) (iv : Int → String → Bool)
    (hf : String → String × Option String) (s : ApiState) (rd : RequestData) (pid : Int)
    (hp : atoi rd.projectIdVar = some pid)
    (hv : iv pid (getSentryKeyAndSecret rd.query rd.authHeaderValues).sentry_key = true)
    (httl : 0 < cfg.UrlCacheExpiration)
    (hunav : s.cache.available = false)
    (hT : 0 ≤ cfg.MaxCacheUses) :
    apiHandler cfg iv hf s rd =
      ({ s with processedItems := s.processedItems + 1,
                storage := (pid, deliveredMessage rd pid) :: s.storage },
       { status := 204, cacheCountHeader := some 0, statusHeader := some "PROCESSED" }) := by
  have hvc := validateCache_unavail cfg s.cache (cacheKeyOf hf rd.projectIdVar rd.rawBody) hunav
  have hle : ¬ (validateCache cfg s.cache (cacheKeyOf hf rd.projectIdVar rd.rawBody)).1
      > cfg.MaxCacheUses := by
    rw [hvc]
    exact not_lt.mpr hT
  rw [apiHandler_processed cfg iv hf s rd pid hp hv hle, hvc]

/-- C6 amended witness: unreachable store, TTL 60, threshold 3: the event
is admitted with count 0. -/
theorem C6_store_unavailable_witness :
    atoi testRequest.projectIdVar = some 7
    ∧ allValid 7
        (getSentryKeyAndSecret testRequest.query testRequest.authHeaderValues).sentry_key
        = true
    ∧ (0 : Int) < (Config.mk 60 3).UrlCacheExpiration
    ∧ downState.cache.available = false
    ∧ (0 : Int) ≤ (Config.mk 60 3).MaxCacheUses
    ∧ apiHandler (Config.mk 60 3) allValid identHash downState testRequest =
        ({ downState with processedItems := downState.processedItems + 1,
                          storage := (7, deliveredMessage testRequest 7) :: downState.storage },
         { status := 204, cacheCountHeader := some 0, statusHeader := some "PROCESSED" }) :=
  ⟨by decide, rfl, by decide, rfl, by decide,
   C6_store_unavailable (Config.mk 60 3) allValid identHash downState testRequest 7
     (by decide) rfl (by decide) rfl (by decide)⟩

/-! ### Claim C7 -/

/-- C7 counterexample: the plaintext body `abcd` happens to be valid
base64, so it is decoded before hashing; its base64 encoding `YWJjZA==`
decodes back to `abcd`.  The two submissions of the same logical content
therefore hash different bytes and (with a deterministic, collision-free
oracle — here the identity) produce different cache keys, contradicting
the claim that encoded and plaintext submissions of the same content
always collapse to the same key. -/
theorem C7_counterexample :
    getRequestBody "YWJjZA==" = "abcd"
    ∧ cacheKeyOf identHash "1" "YWJjZA==" ≠ cacheKeyOf identHash "1" "abcd" := by
  decide

/-- C7 amended: a body that is valid base64 is decoded before hashing; a
body that fails base64 decoding is used as-is (never an error); and a
base64-encoded submission and a plaintext submission of the same logical
content produce the same cache key whenever the plaintext itself is not
valid base64. -/
theorem C7_body_decoding :
    (∀ raw d, decodeBase64 raw = some d → getRequestBody raw = d)
    ∧ (∀ raw, decodeBase64 raw = none → getRequestBody raw = raw)
    ∧ (∀ (hf : String → String × Option String) (pidVar plain enc : String),
        decodeBase64 plain = none → decodeBase64 enc = some plain →
        cacheKeyOf hf pidVar enc = cacheKeyOf hf pidVar plain) := by
  refine ⟨?_, ?_, ?_⟩
  · intro raw d h
    unfold getRequestBody
    rw [h]
  · intro raw h
    unfold getRequestBody
    rw [h]
  · intro hf pidVar plain enc h1 h2
    unfold cacheKeyOf
    rw [show getRequestBody enc = plain by unfold getRequestBody; rw [h2],
        show getRequestBody plain = plain by unfold getRequestBody; rw [h1]]

/-- C7 amended witness: the JSON body, which is not valid base64, and its
base64 encoding collapse to the same cache key. -/
theorem C7_body_decoding_witness :
    decodeBase64 "eyJhIjoxfQ==" = some "\x7b\"a\":1\x7d"
    ∧ decodeBase64 "\x7b\"a\":1\x7d" = none
    ∧ getRequestBody "eyJhIjoxfQ==" = "\x7b\"a\":1\x7d"
    ∧ cacheKeyOf identHash "1" "eyJhIjoxfQ=="
        = cacheKeyOf identHash "1" "\x7b\"a\":1\x7d" :=
  ⟨by decide, by decide,
   C7_body_decoding.1 "eyJhIjoxfQ==" "\x7b\"a\":1\x7d" (by decide),
   C7_body_decoding.2.2 identHash "1" "\x7b\"a\":1\x7d" "eyJhIjoxfQ=="
     (by decide) (by decide)⟩

/-! ### Claim C8 -/

theorem applyAuthHeader_key (a : XSentryAuth) (v : String) :
    (applyAuthHeader a v).sentry_key
      = (headerFieldValue "sentry_key" v).getD a.sentry_key := by
  simp only [applyAuthHeader, headerFieldValue]
  split_ifs <;> simp_all

theorem applyAuthHeader_secret (a : XSentryAuth) (v : String) :
    (applyAuthHeader a v).sentry_secret
      = (headerFieldValue "sentry_secret" v).getD a.sentry_secret := by
  simp only [applyAuthHeader, headerFieldValue]
  split_ifs <;> simp_all

theorem foldl_applyAuthHeader (vals : List String) (a : XSentryAuth) :
    vals.foldl applyAuthHeader a =
      { sentry_key := (lastHeaderField vals "sentry_key").getD a.sentry_key,
        sentry_secret := (lastHeaderField vals "sentry_secret").getD a.sentry_secret } := by
  induction vals generalizing a with
  | nil => simp [lastHeaderField]
  | cons v rest ih =>
    rw [List.foldl_cons, ih (applyAuthHeader a v)]
    refine XSentryAuth.mk.injEq _ _ _ _ ▸ ?_
    constructor
    · rw [applyAuthHeader_key]
      cases h : lastHeaderField rest "sentry_key" with
      | some x => simp [lastHeaderField, h]
      | none => simp [lastHeaderField, h]
    · rw [applyAuthHeader_secret]
      cases h : lastHeaderField rest "sentry_secret" with
      | some x => simp [lastHeaderField, h]
      | none => simp [lastHeaderField, h]

/-- C8 amended: the key is seeded from the query parameter `sentry_key`
while the secret starts at the empty string (the secret is never read from
the query); both are then overlaid field-by-field and independently by the
`field=value` pairs of the X-Sentry-Auth header list, with the last header
value for a field winning: each resolved field equals the last header
value assigned to it, defaulting to the query key (respectively the empty
secret) when the header list never assigns it. -/
theorem C8_auth_resolution (query : String → String) (vals : List String) :
    getSentryKeyAndSecret query vals =
      { sentry_key := (lastHeaderField vals "sentry_key").getD (query "sentry_key"),
        sentry_secret := (lastHeaderField vals "sentry_secret").getD "" } := by
  unfold getSentryKeyAndSecret
  rw [foldl_applyAuthHeader]

/-- C8 counterexample: a secret supplied only as the query parameter
`sentry_secret` is ignored — the resolved secret is the empty string, not
the query value, contradicting the claim that the secret is first read
from query parameters. -/
theorem C8_counterexample :
    (getSentryKeyAndSecret (fun q => if q = "sentry_secret" then "s" else "") []).sentry_secret
        = ""
    ∧ (getSentryKeyAndSecret (fun q => if q = "sentry_secret" then "s" else "") []).sentry_secret
        ≠ "s" := by
  decide

/-! ### Claim C10 -/

/-- C10: the body-reading function returns the base64 decoding exactly
when the raw body decodes as standard base64 and the raw body unchanged
otherwise; in particular the plaintext `abcd` is itself valid base64, so
the bytes hashed and delivered (0x69 0xB7 0x1D) differ from the bytes the
client submitted. -/
theorem C10_decode_when_valid :
    (∀ raw, getRequestBody raw = (decodeBase64 raw).getD raw)
    ∧ (decodeBase64 "abcd").isSome = true
    ∧ getRequestBody "abcd" ≠ "abcd"
    ∧ getRequestBody "abcd"
        = String.mk [Char.ofNat 105, Char.ofNat 183, Char.ofNat 29] := by
  refine ⟨?_, by decide, by decide, by decide⟩
  intro raw
  unfold getRequestBody
  cases h : decodeBase64 raw <;> simp

end Cyclops

